import Mathlib

/-!
Verification of the LegalGPT conversational front end.

The definitions below are a shallow embedding of the client code in
src/frontend/src/App.js and src/frontend/src/components/ChatHistory.js
(the chat service, the message-list state updates of the App component,
and the render predicates of the Message component), together with a
spec-modelled core pipeline (Answer Composer, Conversation Session
Manager, Persistence Gateway) whose backend implementation is not among
the provided sources.  React state updates are modelled as pure
transitions on an explicit AppState record; the network call hidden
inside axios is modelled as an explicit Except-valued argument.
-/

namespace LegalGPT

/-- Role of a chat message, mirroring the role field in App.js. -/
inductive Role where
  | user
  | assistant
deriving DecidableEq, Repr

/-- A legal source attached to an answer, mirroring the source objects built in
App.js (title, content, source, section, url); the section and url keys may be
absent. -/
structure Source where
  title : String
  content : String
  source : String
  sectionLabel : Option String
  url : Option String
deriving DecidableEq, Repr

/-- A message of the displayed conversation, mirroring the objects pushed onto
the messages state in App.js.  Keys that some code paths omit are Options. -/
structure Msg where
  id : Option String
  role : Role
  content : String
  sources : Option (List Source)
  timestamp : Nat
  queryId : Option String
deriving DecidableEq, Repr

/-- The body of a successful POST /chat/message reply as consumed by App.js
(response.data).  Only answer is always read; every other key may be absent,
so they are Options. -/
structure ApiResponse where
  answer : String
  sources : Option (List Source)
  chat_session_id : Option String
  confidence : Option ℚ
  category : Option String
  context_used : Option Bool
  ai_powered : Option Bool
deriving DecidableEq, Repr

/-- A failure of the axios call in chatService.sendMessage: network failure,
an HTTP error status, or a client-side timeout. -/
inductive ApiError where
  | network
  | httpStatus (status : Nat)
  | clientTimeout
deriving DecidableEq, Repr

/-- Leading part of the demo answer template literal in
chatService.sendMessage, up to the interpolated message. -/
def demoAnswerIntro : String :=
  "I understand you\x27re asking about: \""

/-- Trailing part of the demo answer template literal in
chatService.sendMessage, after the interpolated message. -/
def demoAnswerBody : String :=
  "\". \n\nThis is a demo response while the backend is being configured. Your LegalGPT system includes:\n\n🏛️ **Constitutional Law**: Articles, fundamental rights, PIL procedures\n⚖️ **Criminal Law**: IPC sections, FIR procedures, court processes  \n📋 **Civil Law**: Contract law, property disputes, family matters\n🛡️ **Consumer Protection**: Rights, complaint procedures, redressal\n🏢 **Corporate Law**: Company registration, compliance, disputes\n\n**⚖️ Legal Disclaimer**: This information is for educational purposes only and does not constitute legal advice. Please consult with qualified legal professionals for specific legal matters."

/-- The demo answer string interpolating the user message, from the catch
branch of chatService.sendMessage. -/
def demoAnswer (message : String) : String :=
  demoAnswerIntro ++ message ++ demoAnswerBody

/-- The single source shipped with the demo fallback object in
chatService.sendMessage. -/
def demoSource : Source :=
  { title := "Constitution of India"
    content := "Supreme law of India containing fundamental rights and duties"
    source := "Constitution of India, 1950"
    sectionLabel := some "Various Articles"
    url := some "https://www.india.gov.in/my-government/constitution-india" }

/-- The demo fallback object returned by the catch branch of
chatService.sendMessage.  The object literal in App.js carries only the keys
answer, sources, context_used and ai_powered; in particular it has no
chat_session_id, no confidence and no category. -/
def demoFallback (message : String) : ApiResponse :=
  { answer := demoAnswer message
    sources := some [demoSource]
    chat_session_id := none
    confidence := none
    category := none
    context_used := some true
    ai_powered := some false }

/-- Embedding of chatService.sendMessage: the axios POST either succeeds with
response.data or fails, and every failure is caught and converted into the
demo fallback object, so the function is total and never propagates the
error.  The sessionId argument is forwarded to the backend inside the request
body and does not influence the client-side result shape. -/
def sendMessage (message : String) (_sessionId : Option String)
    (backendResult : Except ApiError ApiResponse) : ApiResponse :=
  match backendResult with
  | Except.ok data => data
  | Except.error _ => demoFallback message

/-- One element of the GET /chat/sessions/id/queries reply as consumed by
handleSelectSession in App.js. -/
structure HistoryQuery where
  id : String
  query_text : String
  response_text : String
  sources : Option (List Source)
  created_at : Nat
deriving DecidableEq, Repr

/-- Embedding of chatService.getChatHistory: the axios GET either succeeds
with the query list or fails, and every failure is caught and converted into
the empty list. -/
def getChatHistory (_sessionId : String)
    (backendResult : Except ApiError (List HistoryQuery)) : List HistoryQuery :=
  match backendResult with
  | Except.ok data => data
  | Except.error _ => []

/-- The relevant React state of the App component in App.js. -/
structure AppState where
  user : Option String
  token : Option String
  messages : List Msg
  input : String
  isLoading : Bool
  currentSessionId : Option String
  sources : List Source
  refreshHistory : Nat
deriving DecidableEq, Repr

/-- The error message appended by the catch branch of handleSendMessage and
handleSuggestionClick in App.js. -/
def errorText : String :=
  "Sorry, I encountered an error while processing your request. Please try again."

/-- Embedding of the JavaScript String.prototype.trim used on the input:
whitespace is removed from both ends.  It is written with structural
recursion over the character list so that it evaluates inside the kernel. -/
def trimString (s : String) : String :=
  ⟨((s.data.dropWhile Char.isWhitespace).reverse.dropWhile Char.isWhitespace).reverse⟩

/-- The user message object built by handleSendMessage (id from Date.now,
content from the trimmed input). -/
def sentUserMessage (s : AppState) (now : Nat) : Msg :=
  { id := some (toString now)
    role := Role.user
    content := trimString s.input
    sources := none
    timestamp := now
    queryId := none }

/-- The assistant message object built by handleSendMessage from the chat
service response (content from response.answer, sources from
response.sources with [] as default). -/
def receivedAssistantMessage (s : AppState) (now : Nat)
    (backendResult : Except ApiError ApiResponse) : Msg :=
  { id := some (toString (now + 1))
    role := Role.assistant
    content := (sendMessage (trimString s.input) s.currentSessionId backendResult).answer
    sources := some ((sendMessage (trimString s.input) s.currentSessionId backendResult).sources.getD [])
    timestamp := now
    queryId := none }

/-- Embedding of handleSendMessage in App.js.  The guard mirrors the early
return on empty trimmed input, a pending request, or missing auth.  On the
accepted path the user message and then the assistant message are appended,
the input is cleared, the session id is adopted from the response only when
no session id was set and the response carries one (then the history refresh
counter is bumped), the sources state takes response.sources with []
default, and isLoading ends false. -/
def handleSendMessage (s : AppState) (now : Nat)
    (backendResult : Except ApiError ApiResponse) : AppState :=
  if trimString s.input = "" ∨ s.isLoading = true ∨ s.user = none ∨ s.token = none then s
  else
    let response := sendMessage (trimString s.input) s.currentSessionId backendResult
    let sessionUpdated : Bool := s.currentSessionId.isNone && response.chat_session_id.isSome
    { s with
      messages := s.messages ++ [sentUserMessage s now, receivedAssistantMessage s now backendResult]
      input := ""
      isLoading := false
      currentSessionId := if sessionUpdated then response.chat_session_id else s.currentSessionId
      refreshHistory := if sessionUpdated then s.refreshHistory + 1 else s.refreshHistory
      sources := response.sources.getD [] }

/-- The user message object built by handleSuggestionClick (content is the
suggestion verbatim, not the input). -/
def suggestionUserMessage (suggestion : String) (now : Nat) : Msg :=
  { id := some (toString now)
    role := Role.user
    content := suggestion
    sources := none
    timestamp := now
    queryId := none }

/-- The assistant message object built by handleSuggestionClick from the chat
service response. -/
def suggestionAssistantMessage (s : AppState) (suggestion : String) (now : Nat)
    (backendResult : Except ApiError ApiResponse) : Msg :=
  { id := some (toString (now + 1))
    role := Role.assistant
    content := (sendMessage suggestion s.currentSessionId backendResult).answer
    sources := some ((sendMessage suggestion s.currentSessionId backendResult).sources.getD [])
    timestamp := now
    queryId := none }

/-- Embedding of handleSuggestionClick in App.js: like handleSendMessage but
guarded only on auth and isLoading, and the input state is left unchanged. -/
def handleSuggestionClick (s : AppState) (suggestion : String) (now : Nat)
    (backendResult : Except ApiError ApiResponse) : AppState :=
  if s.user = none ∨ s.token = none ∨ s.isLoading = true then s
  else
    let response := sendMessage suggestion s.currentSessionId backendResult
    let sessionUpdated : Bool := s.currentSessionId.isNone && response.chat_session_id.isSome
    { s with
      messages := s.messages ++ [suggestionUserMessage suggestion now, suggestionAssistantMessage s suggestion now backendResult]
      isLoading := false
      currentSessionId := if sessionUpdated then response.chat_session_id else s.currentSessionId
      refreshHistory := if sessionUpdated then s.refreshHistory + 1 else s.refreshHistory
      sources := response.sources.getD [] }

/-- The user entry pushed by handleSelectSession for one history query. -/
def mkUserEntry (q : HistoryQuery) : Msg :=
  { id := none
    role := Role.user
    content := q.query_text
    sources := none
    timestamp := q.created_at
    queryId := none }

/-- The assistant entry pushed by handleSelectSession for one history query
(sources default to [], queryId recorded). -/
def mkAssistantEntry (q : HistoryQuery) : Msg :=
  { id := none
    role := Role.assistant
    content := q.response_text
    sources := some (q.sources.getD [])
    timestamp := q.created_at
    queryId := some q.id }

/-- The history-to-messages formatting loop of handleSelectSession: each
history query contributes its user entry and then its assistant entry. -/
def formatHistory (history : List HistoryQuery) : List Msg :=
  history.flatMap (fun q => [mkUserEntry q, mkAssistantEntry q])

/-- Embedding of handleSelectSession in App.js: the selected session becomes
current, the message list is replaced by the formatted history (empty on a
fetch failure), and isLoading ends false. -/
def handleSelectSession (s : AppState) (sessionId : String)
    (backendResult : Except ApiError (List HistoryQuery)) : AppState :=
  { s with
    currentSessionId := some sessionId
    messages := formatHistory (getChatHistory sessionId backendResult)
    isLoading := false }

/-- The render condition of the Legal Sources block in the Message component:
message.sources exists and message.sources.length is greater than 0. -/
def showSourcesSection (m : Msg) : Bool :=
  match m.sources with
  | some l => decide (0 < l.length)
  | none => false

/-- The render condition of the source-count badge in the App header:
sources.length is greater than 0. -/
def sourcesBadgeVisible (s : AppState) : Bool :=
  decide (0 < s.sources.length)

/-- Modelled from the spec: the query category enumeration of the Answer
Composer (constitutional, criminal, civil, consumer, corporate, family,
general); the backend classifier is not among the provided sources. -/
inductive Category where
  | constitutional
  | criminal
  | civil
  | consumer
  | corporate
  | family
  | general
deriving DecidableEq, Repr

/-- Modelled from the spec: the failure modes of the external generative
model collaborator; the backend adapter is not among the provided sources. -/
inductive GenError where
  | modelUnavailable
  | modelTimeout
  | modelRateLimited
deriving DecidableEq, Repr

/-- Modelled from the spec: one citation of a ReferenceUnit with its
relevance score; the backend retrieval code is not among the provided
sources. -/
structure Citation where
  unitId : String
  score : ℚ
deriving DecidableEq, Repr

/-- Modelled from the spec: the raw output of a successful generation call
before citation validation (answer, confidence, category, claimed
citations); the backend Composer is not among the provided sources. -/
structure GenOutput where
  answer : String
  confidence : ℚ
  category : Category
  citations : List Citation
deriving DecidableEq, Repr

/-- Modelled from the spec: the output record of the Answer Composer. -/
structure ComposeResult where
  answer : String
  confidence : ℚ
  category : Category
  citations : List Citation
deriving DecidableEq, Repr

/-- Modelled from the spec: the fixed apology string of the Composer's
degraded result; the backend Composer is not among the provided sources. -/
def fallbackAnswer : String :=
  "Apologies - the legal assistant is temporarily unavailable. Please try again later."

/-- Modelled from the spec: the fixed confidence decrement applied when a
model-claimed citation is dropped. -/
def citationPenalty : ℚ := 1 / 10

/-- Modelled from the spec: the Answer Composer.  On a generation failure it
returns the degraded result (fixed apology answer, confidence 0, no
citations, category general); on success it keeps only citations that are in
the retrieved set and penalizes confidence when any claimed citation was
dropped.  The backend Composer is not among the provided sources. -/
def compose (retrievedIds : List String)
    (genResult : Except GenError GenOutput) : ComposeResult :=
  match genResult with
  | Except.error _ =>
      { answer := fallbackAnswer
        confidence := 0
        category := Category.general
        citations := [] }
  | Except.ok g =>
      let kept := g.citations.filter (fun c => retrievedIds.contains c.unitId)
      let conf := if kept.length < g.citations.length
        then max 0 (g.confidence - citationPenalty)
        else g.confidence
      { answer := g.answer
        confidence := conf
        category := g.category
        citations := kept }

/-- Modelled from the spec: one committed Exchange of a session; the backend
persistence model is not among the provided sources. -/
structure Exchange where
  queryText : String
  answerText : String
  citations : List Citation
  confidence : ℚ
  category : Category
  createdAt : Nat
deriving DecidableEq, Repr

/-- Modelled from the spec: a stored Session with its owner and ordered
Exchange list; the backend persistence model is not among the provided
sources. -/
structure Session where
  id : String
  owner : String
  exchanges : List Exchange
deriving DecidableEq, Repr

/-- Modelled from the spec: the state of the Session Manager and Persistence
Gateway — the stored sessions plus the set of session ids with a pending
query; the backend is not among the provided sources. -/
structure CoreState where
  sessions : List Session
  inFlight : List String
deriving DecidableEq, Repr

/-- Modelled from the spec: the error taxonomy of the core pipeline. -/
inductive CoreError where
  | notFound
  | forbidden
  | sessionBusy
  | notReady
deriving DecidableEq, Repr

/-- Modelled from the spec: the submitQuery result shape returned to the
caller (sessionId, answer, confidence, category, sources). -/
structure SubmitOutput where
  sessionId : String
  answer : String
  confidence : ℚ
  category : Category
  sources : List Citation
deriving DecidableEq, Repr

/-- Modelled from the spec: the Exchange committed for one submitQuery call
from the Composer result. -/
def mkExchange (queryText : String) (r : ComposeResult) (now : Nat) : Exchange :=
  { queryText := queryText
    answerText := r.answer
    citations := r.citations
    confidence := r.confidence
    category := r.category
    createdAt := now }

/-- Modelled from the spec: session lookup in the Persistence Gateway. -/
def findSession (st : CoreState) (sid : String) : Option Session :=
  st.sessions.find? (fun s => s.id == sid)

/-- Modelled from the spec: appending a committed Exchange to its session. -/
def appendExchange (st : CoreState) (sid : String) (e : Exchange) : CoreState :=
  { st with
    sessions := st.sessions.map (fun s =>
      if s.id == sid then { s with exchanges := s.exchanges ++ [e] } else s) }

/-- Modelled from the spec: the SubmitOutput assembled from a Composer
result for a given session id. -/
def mkSubmitOutput (sid : String) (r : ComposeResult) : SubmitOutput :=
  { sessionId := sid
    answer := r.answer
    confidence := r.confidence
    category := r.category
    sources := r.citations }

/-- Modelled from the spec: the Conversation Session Manager's submitQuery.
With no session id it creates a fresh session owned by the caller; with a
session id it checks existence (NotFound), ownership (Forbidden) and the
at-most-one-in-flight rule (SessionBusy), then composes the answer, commits
the Exchange and returns the result.  Generation failures are absorbed by
compose into a degraded result, never surfaced as an error.  The backend
Session Manager is not among the provided sources. -/
def submitQuery (st : CoreState) (sessionId : Option String) (ownerId : String)
    (queryText : String) (now : Nat) (freshId : String)
    (retrievedIds : List String)
    (genResult : Except GenError GenOutput) :
    Except CoreError (SubmitOutput × CoreState) :=
  match sessionId with
  | none =>
      let r := compose retrievedIds genResult
      let newSession : Session :=
        { id := freshId, owner := ownerId, exchanges := [mkExchange queryText r now] }
      Except.ok (mkSubmitOutput freshId r,
        { st with sessions := st.sessions ++ [newSession] })
  | some sid =>
      match findSession st sid with
      | none => Except.error CoreError.notFound
      | some sess =>
          if sess.owner ≠ ownerId then Except.error CoreError.forbidden
          else if sid ∈ st.inFlight then Except.error CoreError.sessionBusy
          else
            let r := compose retrievedIds genResult
            Except.ok (mkSubmitOutput sid r,
              appendExchange st sid (mkExchange queryText r now))

/-- Modelled from the spec: the Persistence Gateway's loadHistory read path
(the ordered Exchange list of a session, empty when absent). -/
def loadHistory (st : CoreState) (sid : String) : List Exchange :=
  match findSession st sid with
  | some sess => sess.exchanges
  | none => []

/-- Modelled from the spec: the begin/end events of a query's lifetime used
to state the at-most-one-in-flight-per-session rule. -/
inductive SessionEvent where
  | beginQuery (sid : String)
  | endQuery (sid : String)
deriving DecidableEq, Repr

/-- Modelled from the spec: one step of the per-session serialization of the
Session Manager — a begin for a session already in flight is rejected with
SessionBusy and changes nothing; otherwise the session becomes in flight;
an end removes it. -/
def stepInFlight (fl : List String) (e : SessionEvent) :
    List String × Option CoreError :=
  match e with
  | SessionEvent.beginQuery sid =>
      if sid ∈ fl then (fl, some CoreError.sessionBusy) else (sid :: fl, none)
  | SessionEvent.endQuery sid => (fl.erase sid, none)

/-- Modelled from the spec: the in-flight set reached after a sequence of
begin/end events starting from no pending query. -/
def runInFlight (events : List SessionEvent) : List String :=
  events.foldl (fun fl e => (stepInFlight fl e).1) []

/-- A sample stored session used to evaluate the theorems below. -/
def sampleSession : Session := { id := "s1", owner := "alice", exchanges := [] }

/-- A sample core state holding one idle session. -/
def sampleCore : CoreState := { sessions := [sampleSession], inFlight := [] }

/-- A sample core state whose one session has a query pending. -/
def sampleBusyCore : CoreState := { sessions := [sampleSession], inFlight := ["s1"] }

/-- A sample successful generation output. -/
def sampleGen : GenOutput :=
  { answer := "Article 32 guarantees constitutional remedies."
    confidence := 9 / 10
    category := Category.constitutional
    citations := [] }

/-- A sample App state ready to send a message. -/
def sampleState : AppState :=
  { user := some "alice"
    token := some "tok"
    messages := []
    input := "What is PIL in Indian law?"
    isLoading := false
    currentSessionId := none
    sources := []
    refreshHistory := 0 }

/-- A sample App state with a request already pending. -/
def sampleLoadingState : AppState :=
  { sampleState with isLoading := true }

/-- A sample App state whose current session is already set. -/
def sampleStateWithSession : AppState :=
  { sampleState with currentSessionId := some "s1" }

/-- A sample successful backend reply carrying a session id and no sources. -/
def sampleResponse : ApiResponse :=
  { answer := "PIL stands for public interest litigation."
    sources := some []
    chat_session_id := some "s9"
    confidence := some (4 / 5)
    category := some "constitutional"
    context_used := some true
    ai_powered := some true }

/-- Guard lemma: handleSendMessage is a no-op when the early-return condition
of App.js holds (empty trimmed input, pending request, or missing auth). -/
theorem handleSendMessage_rejected (s : AppState) (now : Nat)
    (b : Except ApiError ApiResponse)
    (h : trimString s.input = "" ∨ s.isLoading = true ∨ s.user = none ∨ s.token = none) :
    handleSendMessage s now b = s := by
  unfold handleSendMessage
  rw [if_pos h]

/-- Claim C1: on a generation failure (model unavailable or timed out) the
spec-modelled pipeline returns a successful degraded result to the caller —
fixed apology answer, confidence 0, empty sources, category general — and
still commits the degraded Exchange, instead of propagating the failure; this
holds both for a submission that opens a new session and for a submission to
an existing valid idle session. -/
theorem submitQuery_degraded_on_generation_failure
    (st : CoreState) (ownerId queryText : String) (now : Nat) (freshId : String)
    (retrievedIds : List String) (e : GenError)
    (sid : String) (sess : Session)
    (hfind : findSession st sid = some sess)
    (howner : sess.owner = ownerId)
    (hfree : sid ∉ st.inFlight)
    (he : e = GenError.modelUnavailable ∨ e = GenError.modelTimeout) :
    submitQuery st none ownerId queryText now freshId retrievedIds (Except.error e)
      = Except.ok
          ({ sessionId := freshId
             answer := fallbackAnswer
             confidence := 0
             category := Category.general
             sources := [] },
           { st with sessions := st.sessions ++
              [{ id := freshId
                 owner := ownerId
                 exchanges := [{ queryText := queryText
                                 answerText := fallbackAnswer
                                 citations := []
                                 confidence := 0
                                 category := Category.general
                                 createdAt := now }] }] })
    ∧ submitQuery st (some sid) ownerId queryText now freshId retrievedIds (Except.error e)
      = Except.ok
          ({ sessionId := sid
             answer := fallbackAnswer
             confidence := 0
             category := Category.general
             sources := [] },
           appendExchange st sid
             { queryText := queryText
               answerText := fallbackAnswer
               citations := []
               confidence := 0
               category := Category.general
               createdAt := now }) := by
  refine ⟨?_, ?_⟩
  · cases he with
    | inl h => subst h; rfl
    | inr h => subst h; rfl
  · simp [submitQuery, compose, mkSubmitOutput, mkExchange, fallbackAnswer,
      hfind, howner, hfree]

/-- Witness for C1 at a concrete timed-out submission, both without a session
id and to the concrete existing idle session. -/
theorem submitQuery_degraded_on_generation_failure_witness :
    (GenError.modelTimeout = GenError.modelUnavailable
      ∨ GenError.modelTimeout = GenError.modelTimeout)
    ∧ (submitQuery sampleCore none "alice" "What is PIL?" 7 "s2" []
        (Except.error GenError.modelTimeout)
      = Except.ok
          ({ sessionId := "s2"
             answer := fallbackAnswer
             confidence := 0
             category := Category.general
             sources := [] },
           { sampleCore with sessions := sampleCore.sessions ++
              [{ id := "s2"
                 owner := "alice"
                 exchanges := [{ queryText := "What is PIL?"
                                 answerText := fallbackAnswer
                                 citations := []
                                 confidence := 0
                                 category := Category.general
                                 createdAt := 7 }] }] })
    ∧ submitQuery sampleCore (some "s1") "alice" "What is PIL?" 7 "s2" []
        (Except.error GenError.modelTimeout)
      = Except.ok
          ({ sessionId := "s1"
             answer := fallbackAnswer
             confidence := 0
             category := Category.general
             sources := [] },
           appendExchange sampleCore "s1"
             { queryText := "What is PIL?"
               answerText := fallbackAnswer
               citations := []
               confidence := 0
               category := Category.general
               createdAt := 7 })) :=
  ⟨Or.inr rfl,
   submitQuery_degraded_on_generation_failure sampleCore "alice" "What is PIL?" 7 "s2" []
     GenError.modelTimeout "s1" sampleSession (by decide) rfl (by decide)
     (Or.inr rfl)⟩

/-- Claim C3: the demo fallback shown when the backend is unreachable is
purely display-side — it carries no session identifier, the current session
id is left unchanged, and the new-session refresh counter is not bumped, so
no session creation is signalled. -/
theorem demo_fallback_display_only (m : String) (s : AppState) (now : Nat)
    (err : ApiError) :
    (demoFallback m).chat_session_id = none
    ∧ (handleSendMessage s now (Except.error err)).currentSessionId = s.currentSessionId
    ∧ (handleSendMessage s now (Except.error err)).refreshHistory = s.refreshHistory := by
  refine ⟨rfl, ?_, ?_⟩ <;>
  · unfold handleSendMessage
    split
    · rfl
    · simp [sendMessage, demoFallback]

/-- Counterexample for C4: at a concrete query, the fallback result object
returned to the caller has no session identifier, no confidence and no
category — the claimed full result shape fails on the fallback path. -/
theorem sendMessage_fallback_missing_fields :
    (sendMessage "What is PIL in Indian law?" none
        (Except.error ApiError.network)).chat_session_id = none
    ∧ (sendMessage "What is PIL in Indian law?" none
        (Except.error ApiError.network)).confidence = none
    ∧ (sendMessage "What is PIL in Indian law?" none
        (Except.error ApiError.network)).category = none :=
  ⟨rfl, rfl, rfl⟩

/-- Claim C4 (amended): every result delivered to the caller carries an
answer string and a sources list, but on the fallback path the object
carries no session identifier, no confidence and no category; successful
backend replies are passed through unchanged. -/
theorem sendMessage_result_shape (m : String) (sessionId : Option String)
    (err : ApiError) (resp : ApiResponse) :
    (sendMessage m sessionId (Except.error err)).answer = demoAnswer m
    ∧ (sendMessage m sessionId (Except.error err)).sources = some [demoSource]
    ∧ (sendMessage m sessionId (Except.error err)).chat_session_id = none
    ∧ (sendMessage m sessionId (Except.error err)).confidence = none
    ∧ (sendMessage m sessionId (Except.error err)).category = none
    ∧ sendMessage m sessionId (Except.ok resp) = resp :=
  ⟨rfl, rfl, rfl, rfl, rfl, rfl⟩

/-- Claim C7: reading a session's history is deterministic — it depends only
on the stored sessions, two reads of the same client result agree, and the
history-to-messages formatting is a pure function of its input. -/
theorem history_read_deterministic
    (st1 st2 : CoreState) (sid : String) (h : st1.sessions = st2.sessions)
    (r : Except ApiError (List HistoryQuery)) (h1 h2 : List HistoryQuery)
    (hh : h1 = h2) :
    loadHistory st1 sid = loadHistory st2 sid
    ∧ getChatHistory sid r = getChatHistory sid r
    ∧ formatHistory h1 = formatHistory h2 :=
  ⟨by unfold loadHistory findSession; rw [h], rfl, by rw [hh]⟩

/-- Witness for C7: the same stored sessions under different in-flight sets
give the same history, and formatting is reproducible. -/
theorem history_read_deterministic_witness :
    loadHistory sampleCore "s1" = loadHistory sampleBusyCore "s1"
    ∧ getChatHistory "s1" (Except.ok ([] : List HistoryQuery))
        = getChatHistory "s1" (Except.ok ([] : List HistoryQuery))
    ∧ formatHistory [] = formatHistory [] :=
  history_read_deterministic sampleCore sampleBusyCore "s1" rfl
    (Except.ok []) [] [] rfl

/-- One step of the in-flight machine preserves distinctness of the pending
session ids. -/
theorem stepInFlight_nodup (fl : List String) (e : SessionEvent)
    (h : fl.Nodup) : ((stepInFlight fl e).1).Nodup := by
  cases e with
  | beginQuery sid =>
    by_cases hm : sid ∈ fl
    · simpa [stepInFlight, hm] using h
    · have hcons : (sid :: fl).Nodup := List.nodup_cons.mpr ⟨hm, h⟩
      simpa [stepInFlight, hm] using hcons
  | endQuery sid =>
    simpa [stepInFlight] using h.erase sid

/-- Folding the in-flight machine over any event sequence preserves
distinctness of the pending session ids. -/
theorem foldl_inFlight_nodup (events : List SessionEvent) (fl : List String)
    (h : fl.Nodup) :
    (events.foldl (fun fl2 e => (stepInFlight fl2 e).1) fl).Nodup := by
  induction events generalizing fl with
  | nil => simpa
  | cons e es ih =>
    rw [List.foldl_cons]
    exact ih _ (stepInFlight_nodup fl e h)

/-- The reachable in-flight sets of the session machine never hold a session
id twice. -/
theorem runInFlight_nodup (events : List SessionEvent) :
    (runInFlight events).Nodup :=
  foldl_inFlight_nodup events [] (by simp)

/-- Claim C2: per session at most one query is ever in flight — every
reachable in-flight set holds each session at most once, a begin for a
pending session is rejected with SessionBusy and leaves the set unchanged,
the spec-modelled submitQuery rejects a submission for a pending session
with SessionBusy, and the client-side guard makes a submission during a
pending request a no-op. -/
theorem session_at_most_one_in_flight
    (events : List SessionEvent) (sid : String)
    (st : CoreState) (sess : Session) (ownerId queryText : String) (now : Nat)
    (freshId : String) (retrievedIds : List String)
    (g : Except GenError GenOutput)
    (s : AppState) (now2 : Nat) (b : Except ApiError ApiResponse)
    (hmem : sid ∈ runInFlight events)
    (hfind : findSession st sid = some sess)
    (howner : sess.owner = ownerId)
    (hbusy : sid ∈ st.inFlight)
    (hload : s.isLoading = true) :
    (runInFlight events).Nodup
    ∧ stepInFlight (runInFlight events) (SessionEvent.beginQuery sid)
        = (runInFlight events, some CoreError.sessionBusy)
    ∧ submitQuery st (some sid) ownerId queryText now freshId retrievedIds g
        = Except.error CoreError.sessionBusy
    ∧ handleSendMessage s now2 b = s := by
  refine ⟨runInFlight_nodup events, ?_, ?_, ?_⟩
  · simp [stepInFlight, hmem]
  · simp [submitQuery, hfind, howner, hbusy]
  · exact handleSendMessage_rejected s now2 b (Or.inr (Or.inl hload))

/-- Witness for C2 at a concrete busy session and a concrete pending client
state. -/
theorem session_at_most_one_in_flight_witness :
    (runInFlight [SessionEvent.beginQuery "s1"]).Nodup
    ∧ stepInFlight (runInFlight [SessionEvent.beginQuery "s1"])
        (SessionEvent.beginQuery "s1")
        = (runInFlight [SessionEvent.beginQuery "s1"], some CoreError.sessionBusy)
    ∧ submitQuery sampleBusyCore (some "s1") "alice" "What is PIL?" 3 "sX" []
        (Except.ok sampleGen)
        = Except.error CoreError.sessionBusy
    ∧ handleSendMessage sampleLoadingState 4 (Except.ok sampleResponse)
        = sampleLoadingState :=
  session_at_most_one_in_flight [SessionEvent.beginQuery "s1"] "s1"
    sampleBusyCore sampleSession "alice" "What is PIL?" 3 "sX" []
    (Except.ok sampleGen) sampleLoadingState 4 (Except.ok sampleResponse)
    (by decide) (by decide) rfl (by decide) rfl

/-- Every formatted history message takes its timestamp from some history
query of the input list. -/
theorem mem_formatHistory (m : Msg) (hist : List HistoryQuery)
    (hm : m ∈ formatHistory hist) : ∃ q ∈ hist, m.timestamp = q.created_at := by
  rw [formatHistory, List.mem_flatMap] at hm
  rcases hm with ⟨q, hq, hmq⟩
  rcases List.mem_cons.mp hmq with rfl | hmq2
  · exact ⟨q, hq, rfl⟩
  · rcases List.mem_singleton.mp hmq2 with rfl
    exact ⟨q, hq, rfl⟩

/-- Formatting a history list sorted by creation time yields a message list
sorted by timestamp. -/
theorem formatHistory_pairwise (hist : List HistoryQuery)
    (h : hist.Pairwise (fun a b => a.created_at ≤ b.created_at)) :
    (formatHistory hist).Pairwise (fun a b => a.timestamp ≤ b.timestamp) := by
  induction hist with
  | nil => simp [formatHistory]
  | cons q rest ih =>
    rw [List.pairwise_cons] at h
    obtain ⟨hq, hrest⟩ := h
    have hstep : formatHistory (q :: rest)
        = mkUserEntry q :: mkAssistantEntry q :: formatHistory rest := rfl
    rw [hstep]
    refine List.Pairwise.cons ?_ (List.Pairwise.cons ?_ (ih hrest))
    · intro b hb
      rcases List.mem_cons.mp hb with rfl | hb2
      · exact le_refl _
      · obtain ⟨r, hr, hbr⟩ := mem_formatHistory b rest hb2
        rw [hbr]
        exact hq r hr
    · intro b hb
      obtain ⟨r, hr, hbr⟩ := mem_formatHistory b rest hb
      rw [hbr]
      exact hq r hr

/-- Claim C5: replaying a session history sorted by creation time yields
messages in non-decreasing timestamp order, the list is exactly the
in-order concatenation of one user entry and one assistant entry per
exchange, and both entries of an exchange carry its query text, answer
text, sources and creation timestamp. -/
theorem history_replay_ordered (history : List HistoryQuery) (q : HistoryQuery)
    (h : history.Pairwise (fun a b => a.created_at ≤ b.created_at)) :
    (formatHistory history).Pairwise (fun a b => a.timestamp ≤ b.timestamp)
    ∧ formatHistory history
        = history.flatMap (fun q2 => [mkUserEntry q2, mkAssistantEntry q2])
    ∧ (mkUserEntry q).role = Role.user
    ∧ (mkUserEntry q).content = q.query_text
    ∧ (mkUserEntry q).timestamp = q.created_at
    ∧ (mkAssistantEntry q).role = Role.assistant
    ∧ (mkAssistantEntry q).content = q.response_text
    ∧ (mkAssistantEntry q).sources = some (q.sources.getD [])
    ∧ (mkAssistantEntry q).timestamp = q.created_at :=
  ⟨formatHistory_pairwise history h, rfl, rfl, rfl, rfl, rfl, rfl, rfl, rfl⟩

/-- A sample first stored history query. -/
def sampleQueryA : HistoryQuery :=
  { id := "q1"
    query_text := "What is PIL in Indian law?"
    response_text := "PIL stands for public interest litigation."
    sources := some [demoSource]
    created_at := 10 }

/-- A sample second stored history query, created later. -/
def sampleQueryB : HistoryQuery :=
  { id := "q2"
    query_text := "How to file an FIR?"
    response_text := "An FIR is filed at the police station."
    sources := none
    created_at := 20 }

/-- A sample stored history in creation order. -/
def sampleHistory : List HistoryQuery := [sampleQueryA, sampleQueryB]

/-- Witness for C5 on a concrete two-exchange history. -/
theorem history_replay_ordered_witness :
    (formatHistory sampleHistory).Pairwise (fun a b => a.timestamp ≤ b.timestamp)
    ∧ formatHistory sampleHistory
        = sampleHistory.flatMap (fun q2 => [mkUserEntry q2, mkAssistantEntry q2])
    ∧ (mkUserEntry sampleQueryA).role = Role.user
    ∧ (mkUserEntry sampleQueryA).content = sampleQueryA.query_text
    ∧ (mkUserEntry sampleQueryA).timestamp = sampleQueryA.created_at
    ∧ (mkAssistantEntry sampleQueryA).role = Role.assistant
    ∧ (mkAssistantEntry sampleQueryA).content = sampleQueryA.response_text
    ∧ (mkAssistantEntry sampleQueryA).sources = some (sampleQueryA.sources.getD [])
    ∧ (mkAssistantEntry sampleQueryA).timestamp = sampleQueryA.created_at :=
  history_replay_ordered sampleHistory sampleQueryA (by decide)

/-- Claim C6: a submission without a session id makes the spec-modelled
pipeline create a fresh session owned by the caller and return its id; a
submission with a valid session id appends to that session and creates no
new session; client-side, a response session id is adopted as current
exactly when none was set, and an already-set session id is kept for
subsequent submissions. -/
theorem session_creation_and_reuse
    (st : CoreState) (ownerId queryText : String) (now : Nat) (freshId : String)
    (retrievedIds : List String) (g : Except GenError GenOutput)
    (sid : String) (sess : Session)
    (hfind : findSession st sid = some sess)
    (howner : sess.owner = ownerId)
    (hfree : sid ∉ st.inFlight)
    (s : AppState) (now2 : Nat) (resp : ApiResponse) (sid2 : String)
    (hacc : ¬(trimString s.input = "" ∨ s.isLoading = true ∨ s.user = none ∨ s.token = none))
    (hnone : s.currentSessionId = none)
    (hrsid : resp.chat_session_id = some sid2)
    (s2 : AppState) (b2 : Except ApiError ApiResponse)
    (hsome : s2.currentSessionId = some sid) :
    submitQuery st none ownerId queryText now freshId retrievedIds g
      = Except.ok (mkSubmitOutput freshId (compose retrievedIds g),
          { st with sessions := st.sessions ++
              [{ id := freshId
                 owner := ownerId
                 exchanges := [mkExchange queryText (compose retrievedIds g) now] }] })
    ∧ submitQuery st (some sid) ownerId queryText now freshId retrievedIds g
      = Except.ok (mkSubmitOutput sid (compose retrievedIds g),
          appendExchange st sid (mkExchange queryText (compose retrievedIds g) now))
    ∧ (appendExchange st sid
          (mkExchange queryText (compose retrievedIds g) now)).sessions.length
        = st.sessions.length
    ∧ (handleSendMessage s now2 (Except.ok resp)).currentSessionId = some sid2
    ∧ (handleSendMessage s2 now2 b2).currentSessionId = some sid := by
  refine ⟨rfl, ?_, ?_, ?_, ?_⟩
  · simp [submitQuery, hfind, howner, hfree]
  · simp [appendExchange]
  · unfold handleSendMessage
    rw [if_neg hacc]
    simp [sendMessage, hnone, hrsid]
  · by_cases hg : (trimString s2.input = "" ∨ s2.isLoading = true
        ∨ s2.user = none ∨ s2.token = none)
    · rw [handleSendMessage_rejected s2 now2 b2 hg]
      exact hsome
    · unfold handleSendMessage
      rw [if_neg hg]
      simp [hsome]

/-- Witness for C6 at a concrete fresh submission, a concrete existing
session, and concrete client states. -/
theorem session_creation_and_reuse_witness :
    submitQuery sampleCore none "alice" "What is PIL?" 3 "s2" []
        (Except.ok sampleGen)
      = Except.ok (mkSubmitOutput "s2" (compose [] (Except.ok sampleGen)),
          { sampleCore with sessions := sampleCore.sessions ++
              [{ id := "s2"
                 owner := "alice"
                 exchanges := [mkExchange "What is PIL?"
                    (compose [] (Except.ok sampleGen)) 3] }] })
    ∧ submitQuery sampleCore (some "s1") "alice" "What is PIL?" 3 "s2" []
        (Except.ok sampleGen)
      = Except.ok (mkSubmitOutput "s1" (compose [] (Except.ok sampleGen)),
          appendExchange sampleCore "s1"
            (mkExchange "What is PIL?" (compose [] (Except.ok sampleGen)) 3))
    ∧ (appendExchange sampleCore "s1"
          (mkExchange "What is PIL?" (compose [] (Except.ok sampleGen)) 3)).sessions.length
        = sampleCore.sessions.length
    ∧ (handleSendMessage sampleState 5 (Except.ok sampleResponse)).currentSessionId
        = some "s9"
    ∧ (handleSendMessage sampleStateWithSession 5
          (Except.error ApiError.network)).currentSessionId = some "s1" :=
  session_creation_and_reuse sampleCore "alice" "What is PIL?" 3 "s2" []
    (Except.ok sampleGen) "s1" sampleSession (by decide) rfl (by decide)
    sampleState 5 sampleResponse "s9" (by decide) rfl rfl
    sampleStateWithSession (Except.error ApiError.network) rfl

/-- Claim C8: a reply with missing or empty sources is handled as a normal
answer — the assistant message is appended as usual with the reply's answer
text, the Legal Sources block of the Message component is suppressed, the
sources state becomes empty and the header source-count badge is hidden,
and no error path is taken. -/
theorem empty_sources_normal_answer
    (s : AppState) (now : Nat) (resp : ApiResponse)
    (hacc : ¬(trimString s.input = "" ∨ s.isLoading = true ∨ s.user = none ∨ s.token = none))
    (hsrc : resp.sources = none ∨ resp.sources = some []) :
    (handleSendMessage s now (Except.ok resp)).messages
        = s.messages ++ [sentUserMessage s now,
            receivedAssistantMessage s now (Except.ok resp)]
    ∧ (receivedAssistantMessage s now (Except.ok resp)).role = Role.assistant
    ∧ (receivedAssistantMessage s now (Except.ok resp)).content = resp.answer
    ∧ showSourcesSection (receivedAssistantMessage s now (Except.ok resp)) = false
    ∧ (handleSendMessage s now (Except.ok resp)).sources = []
    ∧ sourcesBadgeVisible (handleSendMessage s now (Except.ok resp)) = false := by
  have hsrcs : (handleSendMessage s now (Except.ok resp)).sources = [] := by
    unfold handleSendMessage
    rw [if_neg hacc]
    rcases hsrc with h | h <;> simp [sendMessage, h]
  refine ⟨?_, rfl, rfl, ?_, hsrcs, ?_⟩
  · unfold handleSendMessage
    rw [if_neg hacc]
  · rcases hsrc with h | h <;>
      simp [showSourcesSection, receivedAssistantMessage, sendMessage, h]
  · simp [sourcesBadgeVisible, hsrcs]

/-- Witness for C8 at a concrete reply whose sources list is empty. -/
theorem empty_sources_normal_answer_witness :
    (handleSendMessage sampleState 5 (Except.ok sampleResponse)).messages
        = sampleState.messages ++ [sentUserMessage sampleState 5,
            receivedAssistantMessage sampleState 5 (Except.ok sampleResponse)]
    ∧ (receivedAssistantMessage sampleState 5 (Except.ok sampleResponse)).role
        = Role.assistant
    ∧ (receivedAssistantMessage sampleState 5 (Except.ok sampleResponse)).content
        = sampleResponse.answer
    ∧ showSourcesSection
        (receivedAssistantMessage sampleState 5 (Except.ok sampleResponse)) = false
    ∧ (handleSendMessage sampleState 5 (Except.ok sampleResponse)).sources = []
    ∧ sourcesBadgeVisible (handleSendMessage sampleState 5 (Except.ok sampleResponse))
        = false :=
  empty_sources_normal_answer sampleState 5 sampleResponse (by decide) (Or.inr rfl)

set_option maxRecDepth 8192 in
/-- Claim C9: chatService.sendMessage never rejects — every API failure is
absorbed into the demo fallback object, which always carries an answer and a
sources list; consequently, on an API failure handleSendMessage appends the
normal user/assistant pair whose assistant content is the demo answer, and
the catch-branch error text can never be that content, since the demo answer
is strictly longer than the error text. -/
theorem sendMessage_never_rejects
    (m : String) (sid : Option String) (err : ApiError)
    (s : AppState) (now : Nat)
    (hacc : ¬(trimString s.input = "" ∨ s.isLoading = true ∨ s.user = none ∨ s.token = none)) :
    sendMessage m sid (Except.error err) = demoFallback m
    ∧ (demoFallback m).sources = some [demoSource]
    ∧ (handleSendMessage s now (Except.error err)).messages
        = s.messages ++ [sentUserMessage s now,
            receivedAssistantMessage s now (Except.error err)]
    ∧ (receivedAssistantMessage s now (Except.error err)).content
        = demoAnswer (trimString s.input)
    ∧ errorText ≠ demoAnswer m := by
  refine ⟨rfl, rfl, ?_, rfl, ?_⟩
  · unfold handleSendMessage
    rw [if_neg hacc]
  · intro h
    have hl := congrArg String.length h
    rw [demoAnswer, String.length_append, String.length_append] at hl
    have hb : errorText.length < demoAnswerIntro.length + demoAnswerBody.length := by
      decide
    omega

/-- Witness for C9 at a concrete message and a concrete network failure. -/
theorem sendMessage_never_rejects_witness :
    sendMessage "hello" none (Except.error ApiError.network) = demoFallback "hello"
    ∧ (demoFallback "hello").sources = some [demoSource]
    ∧ (handleSendMessage sampleState 3 (Except.error ApiError.network)).messages
        = sampleState.messages ++ [sentUserMessage sampleState 3,
            receivedAssistantMessage sampleState 3 (Except.error ApiError.network)]
    ∧ (receivedAssistantMessage sampleState 3 (Except.error ApiError.network)).content
        = demoAnswer (trimString sampleState.input)
    ∧ errorText ≠ demoAnswer "hello" :=
  sendMessage_never_rejects "hello" none ApiError.network sampleState 3 (by decide)

/-- Claim C10: every accepted submission appends exactly the user message
followed by the assistant message to the displayed list, via either send
path, and both paths only ever append — the previous message list is always
a prefix of the new one. -/
theorem messages_append_only
    (s sAny : AppState) (now : Nat) (b : Except ApiError ApiResponse)
    (suggestion : String)
    (hacc : ¬(trimString s.input = "" ∨ s.isLoading = true ∨ s.user = none ∨ s.token = none)) :
    (handleSendMessage s now b).messages
      = s.messages ++ [sentUserMessage s now, receivedAssistantMessage s now b]
    ∧ (sentUserMessage s now).role = Role.user
    ∧ (receivedAssistantMessage s now b).role = Role.assistant
    ∧ (handleSuggestionClick s suggestion now b).messages
      = s.messages ++ [suggestionUserMessage suggestion now,
          suggestionAssistantMessage s suggestion now b]
    ∧ (suggestionUserMessage suggestion now).role = Role.user
    ∧ (suggestionAssistantMessage s suggestion now b).role = Role.assistant
    ∧ (handleSendMessage sAny now b).messages.take sAny.messages.length
        = sAny.messages
    ∧ (handleSuggestionClick sAny suggestion now b).messages.take sAny.messages.length
        = sAny.messages := by
  have hacc2 : ¬(s.user = none ∨ s.token = none ∨ s.isLoading = true) := by
    intro hcon
    apply hacc
    rcases hcon with h | h | h
    · exact Or.inr (Or.inr (Or.inl h))
    · exact Or.inr (Or.inr (Or.inr h))
    · exact Or.inr (Or.inl h)
  refine ⟨?_, rfl, rfl, ?_, rfl, rfl, ?_, ?_⟩
  · unfold handleSendMessage
    rw [if_neg hacc]
  · unfold handleSuggestionClick
    rw [if_neg hacc2]
  · by_cases hg : (trimString sAny.input = "" ∨ sAny.isLoading = true
        ∨ sAny.user = none ∨ sAny.token = none)
    · rw [handleSendMessage_rejected sAny now b hg, List.take_length]
    · unfold handleSendMessage
      rw [if_neg hg]
      simp
  · by_cases hg : (sAny.user = none ∨ sAny.token = none ∨ sAny.isLoading = true)
    · unfold handleSuggestionClick
      rw [if_pos hg, List.take_length]
    · unfold handleSuggestionClick
      rw [if_neg hg]
      simp

/-- Witness for C10 at a concrete accepted send and a concrete rejected
state. -/
theorem messages_append_only_witness :
    (handleSendMessage sampleState 3 (Except.ok sampleResponse)).messages
      = sampleState.messages ++ [sentUserMessage sampleState 3,
          receivedAssistantMessage sampleState 3 (Except.ok sampleResponse)]
    ∧ (sentUserMessage sampleState 3).role = Role.user
    ∧ (receivedAssistantMessage sampleState 3 (Except.ok sampleResponse)).role
        = Role.assistant
    ∧ (handleSuggestionClick sampleState "How to file an FIR?" 3
          (Except.ok sampleResponse)).messages
      = sampleState.messages ++ [suggestionUserMessage "How to file an FIR?" 3,
          suggestionAssistantMessage sampleState "How to file an FIR?" 3
            (Except.ok sampleResponse)]
    ∧ (suggestionUserMessage "How to file an FIR?" 3).role = Role.user
    ∧ (suggestionAssistantMessage sampleState "How to file an FIR?" 3
          (Except.ok sampleResponse)).role = Role.assistant
    ∧ (handleSendMessage sampleLoadingState 3
          (Except.ok sampleResponse)).messages.take sampleLoadingState.messages.length
        = sampleLoadingState.messages
    ∧ (handleSuggestionClick sampleLoadingState "How to file an FIR?" 3
          (Except.ok sampleResponse)).messages.take sampleLoadingState.messages.length
        = sampleLoadingState.messages :=
  messages_append_only sampleState sampleLoadingState 3 (Except.ok sampleResponse)
    "How to file an FIR?" (by decide)

end LegalGPT
